import Mathlib

/- Shallow embedding of the ObjectCounter interactive annotation canvas.

   Sources embedded:
   - src/App.tsx: application state and the calibration workflow
     (startCalibration, handleCalibrationUpdate, updatePhysicalMetrics,
     handleMaskUpdate, clearSelectedMask, the Cancel Calibration button).
   - src/components/ItemCanvas.tsx: coordinate transforms, hit testing
     (handleMouseMove), click routing (handleClick) and the in-progress
     calibration click buffer (calPoints).
   - the detection-service module (analyzeItems): post-parse assembly of
     the detection result.

   JavaScript numbers are modelled as real numbers.  The React state
   updates performed inside one event handler are modelled by their net
   effect on a single state record. -/

/-- A 2-D point, as in types.ts.  Whether a point is in normalized
(0-1000) space or render-surface pixel space is indicated at each use
site, as in the source. -/
@[ext]
structure Point where
  x : ℝ
  y : ℝ

/-- Pixel dimensions of the canvas drawing surface (canvas.width and
canvas.height in ItemCanvas.tsx, set each frame from the container width
and the image aspect ratio). -/
structure Surface where
  width : ℝ
  height : ℝ

/-- One detected object (ItemInstance in types.ts).  boundingBox is
(ymin, xmin, ymax, xmax) in normalized 0-1000 coordinates; widthMm and
heightMm are the optional derived physical measurements. -/
structure ItemInstance where
  id : String
  boundingBox : ℝ × ℝ × ℝ × ℝ
  mask : List Point
  confidence : ℝ
  areaPx : ℝ
  widthMm : Option ℝ := none
  heightMm : Option ℝ := none
  label : String

/-- The summary block of AnalysisResult (types.ts). -/
structure AnalysisSummary where
  totalCount : ℕ
  averageConfidence : ℝ
  totalAreaPx : ℝ

/-- AnalysisResult (types.ts), restricted to the fields read or written by
the embedded operations (the performance metadata and the image dimensions
are never consumed by them). -/
structure AnalysisResult where
  items : List ItemInstance
  summary : AnalysisSummary

/-- AppState (types.ts). -/
inductive AppState where
  | SETUP
  | IDLE
  | PROCESSING
  | REVIEW
  | CALIBRATING
  deriving DecidableEq

/-- CalibrationData (types.ts). -/
structure CalibrationData where
  referenceLengthMm : ℝ
  pixelsPerMm : Option ℝ
  startPoint : Option Point
  endPoint : Option Point

/-- Combined state of App.tsx and ItemCanvas.tsx: the App state hooks
(appState, calibration, result, selectedItemId, editMode) together with
the canvas component state (calPoints, hoveredItemId).  ItemCanvas
receives isCalibrating := (appState = CALIBRATING) as a prop from App. -/
structure Model where
  appState : AppState
  calibration : CalibrationData
  result : Option AnalysisResult
  selectedItemId : Option String
  editMode : Bool
  calPoints : List Point
  hoveredItemId : Option String

/-- Normalized (0-1000) coordinates to render-surface pixels: the
conversion used throughout the render function of ItemCanvas.tsx,
x = (pt.x / 1000) * canvas.width, y = (pt.y / 1000) * canvas.height. -/
noncomputable def toRenderSpace (p : Point) (s : Surface) : Point :=
  ⟨p.x / 1000 * s.width, p.y / 1000 * s.height⟩

/-- Render-surface pixels to normalized coordinates, as computed in
handleMouseMove and in the edit branch of handleClick (ItemCanvas.tsx):
x = (px / canvas.width) * 1000, y = (py / canvas.height) * 1000. -/
noncomputable def toNormalized (p : Point) (s : Surface) : Point :=
  ⟨p.x / s.width * 1000, p.y / s.height * 1000⟩

/-- The hit-test predicate of handleMouseMove (ItemCanvas.tsx lines
219-222): x >= xmin && x <= xmax && y >= ymin && y <= ymax on the
normalized point, with boundingBox destructured [ymin, xmin, ymax, xmax]. -/
noncomputable def inBoundingBox (q : Point) (s : ItemInstance) : Bool :=
  match s.boundingBox with
  | (ymin, xmin, ymax, xmax) =>
    decide (q.x ≥ xmin) && decide (q.x ≤ xmax) &&
      decide (q.y ≥ ymin) && decide (q.y ≤ ymax)

/-- Propositional form of the inclusive bounding-box containment test,
used to state theorems about the hit test. -/
def InBox (q : Point) (s : ItemInstance) : Prop :=
  match s.boundingBox with
  | (ymin, xmin, ymax, xmax) =>
    xmin ≤ q.x ∧ q.x ≤ xmax ∧ ymin ≤ q.y ∧ q.y ≤ ymax

/-- The hit test of handleMouseMove (ItemCanvas.tsx lines 215-223):
convert the render-space point to normalized space, then take the first
item of the result list whose bounding box contains it. -/
noncomputable def hitTest (p : Point) (items : List ItemInstance) (s : Surface) :
    Option ItemInstance :=
  items.find? (inBoundingBox (toNormalized p s))

/-- Rounding to two decimal places, modelling Number(v.toFixed(2)); ties
go to the larger value as in toFixed. -/
noncomputable def round2 (v : ℝ) : ℝ := ((round (v * 100) : ℤ) : ℝ) / 100

/-- updatePhysicalMetrics (App.tsx lines 77-88): for every item, derive
widthMm and heightMm from the bounding-box extents times the fixed
multiplier 5, divided by the pixels-per-millimeter factor, rounded to two
decimal places. -/
noncomputable def updatePhysicalMetrics (items : List ItemInstance) (pxMm : ℝ) :
    List ItemInstance :=
  items.map fun s =>
    match s.boundingBox with
    | (ymin, xmin, ymax, xmax) =>
      let widthPx := (xmax - xmin) * 5
      let heightPx := (ymax - ymin) * 5
      { s with widthMm := some (round2 (widthPx / pxMm)),
               heightMm := some (round2 (heightPx / pxMm)) }

/-- startCalibration (App.tsx lines 90-96): shows the isCalibratingInit
spinner and 800 ms later enters CALIBRATING; modelled as the net state
change once the timeout has fired.  referenceLengthMm is not inspected,
and the canvas calPoints buffer is untouched. -/
def startCalibration (m : Model) : Model :=
  { m with appState := AppState.CALIBRATING }

/-- The Cancel Calibration button (App.tsx line 287): onClick sets the app
state back to REVIEW.  Nothing else changes; in particular the canvas
calPoints buffer is untouched. -/
def cancelCalibration (m : Model) : Model :=
  { m with appState := AppState.REVIEW }

/-- handleMaskUpdate (App.tsx lines 118-122) at the item-list level:
replace the mask of every item whose id matches. -/
def handleMaskUpdate (items : List ItemInstance) (itemId : String)
    (newMask : List Point) : List ItemInstance :=
  items.map fun i => if i.id == itemId then { i with mask := newMask } else i

/-- clearSelectedMask (App.tsx lines 124-128) at the item-list level:
reset the mask of every item whose id matches the selection to []. -/
def clearSelectedMask (items : List ItemInstance) (selectedId : String) :
    List ItemInstance :=
  items.map fun i => if i.id == selectedId then { i with mask := [] } else i

/-- handleCalibrationUpdate (App.tsx lines 98-116): derive pixelsPerMm
from the two render-space points, publish it together with the points to
CalibrationData, recompute the physical metrics of the current result,
and return the app state to REVIEW. -/
noncomputable def handleCalibrationUpdate (m : Model) (p0 p1 : Point) : Model :=
  let dx := p1.x - p0.x
  let dy := p1.y - p0.y
  let distPx := Real.sqrt (dx * dx + dy * dy)
  let pxPerMm := distPx / m.calibration.referenceLengthMm
  let cal := { m.calibration with
    pixelsPerMm := some pxPerMm, startPoint := some p0, endPoint := some p1 }
  let res := m.result.map fun r =>
    ({ r with items := updatePhysicalMetrics r.items pxPerMm } : AnalysisResult)
  { m with calibration := cal, result := res, appState := AppState.REVIEW }

/-- handleMouseMove (ItemCanvas.tsx lines 211-224): outside calibration
and with a result present, set hoveredItemId from the hit test at the
pointer position. -/
noncomputable def handleMouseMove (m : Model) (s : Surface) (p : Point) : Model :=
  if m.appState = AppState.CALIBRATING then m
  else
    match m.result with
    | none => m
    | some r => { m with hoveredItemId := (hitTest p r.items s).map ItemInstance.id }

/-- Net outcome of one click: the new combined state plus the callback
payloads emitted during the click (onItemClick, onCalibrationUpdate,
onMaskUpdate), each none when the callback did not fire.  The model field
already includes the effect of the App handlers wired to the callbacks. -/
structure ClickOutcome where
  model : Model
  itemClicked : Option ItemInstance
  calibrationPoints : Option (Point × Point)
  maskUpdated : Option (String × List Point)

/-- handleClick (ItemCanvas.tsx lines 226-260) composed with the App
callbacks it triggers (App.tsx lines 391-393): onCalibrationUpdate is
handleCalibrationUpdate, onMaskUpdate is handleMaskUpdate on the result
items, and onItemClick sets selectedItemId.  p is the render-space click
point. -/
noncomputable def handleClick (m : Model) (s : Surface) (p : Point) : ClickOutcome :=
  if m.appState = AppState.CALIBRATING then
    -- calPoints.length < 2: buffer the click; on the second click fire
    -- onCalibrationUpdate with both points and clear the buffer.
    match m.calPoints with
    | [] => ⟨{ m with calPoints := [p] }, none, none, none⟩
    | [q] => ⟨handleCalibrationUpdate { m with calPoints := [] } q p,
              none, some (q, p), none⟩
    | _ => ⟨m, none, none, none⟩
  else
    match m.editMode, m.selectedItemId, m.result with
    | true, some sel, some r =>
      -- edit branch: append the normalized click point to the selected
      -- item's mask via onMaskUpdate.
      let q := toNormalized p s
      match r.items.find? (fun i => i.id == sel) with
      | some item =>
        let newMask := item.mask ++ [q]
        let r2 : AnalysisResult :=
          { r with items := handleMaskUpdate r.items item.id newMask }
        ⟨{ m with result := some r2 }, none, none, some (item.id, newMask)⟩
      | none => ⟨m, none, none, none⟩
    | _, _, _ =>
      -- selection branch: fire onItemClick for the hovered item, if any.
      match m.hoveredItemId, m.result with
      | some hid, some r =>
        match r.items.find? (fun i => i.id == hid) with
        | some item =>
          ⟨{ m with selectedItemId := some item.id }, some item, none, none⟩
        | none => ⟨m, none, none, none⟩
      | _, _ => ⟨m, none, none, none⟩

/-- One parsed entry of the detection response as it exists at runtime
before any validation: the response schema requests a bounding box, but
nothing in the client checks its presence, so it is optional here. -/
structure RawItem where
  id : String
  boundingBox : Option (ℝ × ℝ × ℝ × ℝ)
  mask : List Point
  confidence : ℝ
  areaPx : ℝ
  label : String

/-- The summary block assembled by analyzeItems. -/
structure RawSummary where
  totalCount : ℕ
  averageConfidence : ℝ
  totalAreaPx : ℝ

/-- The result shape assembled by analyzeItems over raw parsed entries. -/
structure RawAnalysisResult where
  items : List RawItem
  summary : RawSummary

/-- analyzeItems post-parse assembly (detection-service module, lines
84-106): the parsed entries are assigned to the item list by a type
assertion only (const items: ItemInstance[] = rawResult.items) and the
summary statistics are computed; no entry is inspected or filtered. -/
noncomputable def analyzeItems (rawItems : List RawItem) : RawAnalysisResult :=
  let items := rawItems
  let totalCount := items.length
  let avgConf := (items.map RawItem.confidence).sum /
    (if totalCount = 0 then 1 else (totalCount : ℝ))
  let totalArea := (items.map RawItem.areaPx).sum
  { items := items, summary := ⟨totalCount, avgConf, totalArea⟩ }

/-- Fixture: a 1000 by 1000 drawing surface, on which render coordinates
coincide numerically with normalized coordinates. -/
def s1000 : Surface := ⟨1000, 1000⟩

/-- Fixture: item A of the hit-test tie-break example, box (0,0,500,500). -/
def itemA : ItemInstance :=
  { id := "A", boundingBox := (0, 0, 500, 500), mask := [],
    confidence := 1, areaPx := 0, label := "" }

/-- Fixture: item B of the hit-test tie-break example,
box (100,100,600,600). -/
def itemB : ItemInstance :=
  { id := "B", boundingBox := (100, 100, 600, 600), mask := [],
    confidence := 1, areaPx := 0, label := "" }

/-- Fixture: a calibration record with the given reference length and no
completed pass. -/
def calWith (ref : ℝ) : CalibrationData :=
  { referenceLengthMm := ref, pixelsPerMm := none,
    startPoint := none, endPoint := none }

/-- Fixture: a baseline model in REVIEW with reference length 10 mm, an
empty click buffer, and no result. -/
def baseModel : Model :=
  { appState := AppState.REVIEW, calibration := calWith 10, result := none,
    selectedItemId := none, editMode := false, calPoints := [],
    hoveredItemId := none }

/-- Fixture: model armed for calibration with the first reference point
(0,0) already buffered. -/
def mC3 : Model :=
  { baseModel with appState := AppState.CALIBRATING, calPoints := [⟨0, 0⟩] }

/-- Fixture: model whose calibration reference length is 0. -/
def mC1 : Model := { baseModel with calibration := calWith 0 }

/-- Fixture: a result holding only item A. -/
def resultA : AnalysisResult := { items := [itemA], summary := ⟨1, 1, 0⟩ }

/-- Fixture: review-mode model with item A hovered, not in edit mode. -/
def mC8w : Model :=
  { baseModel with
    result := some resultA
    hoveredItemId := some ("A") }

/-- Fixture: edit-mode model with item A hovered but nothing selected. -/
def mC8c : Model := { mC8w with editMode := true }

/-- Fixture: an item with the two-vertex mask of the append example. -/
def itemM : ItemInstance :=
  { id := "m", boundingBox := (0, 0, 20, 20), mask := [⟨0, 0⟩, ⟨10, 0⟩],
    confidence := 1, areaPx := 0, label := "" }

/-- Fixture: a result holding only the mask-append example item. -/
def resultM : AnalysisResult := { items := [itemM], summary := ⟨1, 1, 0⟩ }

/-- Fixture: edit-mode model with the mask-append example item selected. -/
def mC6 : Model :=
  { baseModel with
    result := some resultM
    selectedItemId := some ("m")
    editMode := true }

/-- Fixture: an item with bounding box (0,0,500,1000) and a non-empty
mask, for the measurement example. -/
def itemC7 : ItemInstance :=
  { id := "c", boundingBox := (0, 0, 500, 1000), mask := [⟨1, 1⟩],
    confidence := 1, areaPx := 0, label := "" }

/-- Fixture: a result holding only the measurement example item. -/
def resultC7 : AnalysisResult := { items := [itemC7], summary := ⟨1, 1, 0⟩ }

/-- Fixture: review-mode model carrying the measurement example result. -/
def mC7 : Model := { baseModel with result := some resultC7 }

/-- Fixture: a parsed detection entry with no bounding box. -/
def rawBad : RawItem :=
  { id := "bad", boundingBox := none, mask := [], confidence := 1,
    areaPx := 0, label := "" }

/-- Helper: the boolean hit-test predicate decides the propositional
containment test. -/
theorem inBoundingBox_iff (q : Point) (s : ItemInstance) :
    inBoundingBox q s = true ↔ InBox q s := by
  rcases s with ⟨i, ⟨ymin, xmin, ymax, xmax⟩, mk, c, a, w, h, l⟩
  simp [inBoundingBox, InBox, and_assoc, ge_iff_le]

/-- Helper: pointwise description of updatePhysicalMetrics. -/
theorem updatePhysicalMetrics_get (items : List ItemInstance) (pxMm : ℝ) (n : ℕ) :
    (updatePhysicalMetrics items pxMm)[n]? =
      (items[n]?).map fun s =>
        match s.boundingBox with
        | (ymin, xmin, ymax, xmax) =>
          { s with widthMm := some (round2 ((xmax - xmin) * 5 / pxMm)),
                   heightMm := some (round2 ((ymax - ymin) * 5 / pxMm)) } := by
  simp only [updatePhysicalMetrics, List.getElem?_map]

/-- Claim C4: for every point p and surface s with positive width and
height, converting p from normalized space to render space and back with
the transforms of ItemCanvas.tsx is the identity (exactly, over the
reals); no clamping is applied, so any out-of-bounds point round-trips
the same way. -/
theorem toNormalized_toRenderSpace_roundtrip (p : Point) (s : Surface)
    (hw : 0 < s.width) (hh : 0 < s.height) :
    toNormalized (toRenderSpace p s) s = p := by
  ext
  · show p.x / 1000 * s.width / s.width * 1000 = p.x
    field_simp
    ring
  · show p.y / 1000 * s.height / s.height * 1000 = p.y
    field_simp
    ring

/-- Witness for C4 at a concrete point and surface. -/
theorem toNormalized_toRenderSpace_roundtrip_witness :
    (0 : ℝ) < 2 ∧ (0 : ℝ) < 5 ∧
      toNormalized (toRenderSpace ⟨3, 4⟩ ⟨2, 5⟩) ⟨2, 5⟩ = (⟨3, 4⟩ : Point) :=
  ⟨by norm_num, by norm_num,
    toNormalized_toRenderSpace_roundtrip ⟨3, 4⟩ ⟨2, 5⟩ (by norm_num) (by norm_num)⟩

/-- Claim C5: the hit test converts the render-space point to normalized
space and returns the first item, in the result's stored order, whose
bounding box contains it with inclusive bounds; it returns none exactly
when no bounding box contains the point. -/
theorem hitTest_first_match (p : Point) (items : List ItemInstance) (s : Surface) :
    (hitTest p items s = none ↔ ∀ it ∈ items, ¬ InBox (toNormalized p s) it) ∧
    (∀ it : ItemInstance, hitTest p items s = some it ↔
      InBox (toNormalized p s) it ∧
        ∃ pre post, items = pre ++ it :: post ∧
          ∀ x ∈ pre, ¬ InBox (toNormalized p s) x) := by
  constructor
  · rw [hitTest, List.find?_eq_none]
    constructor
    · intro h it hmem hbox
      exact h it hmem ((inBoundingBox_iff _ it).mpr hbox)
    · intro h it hmem hbox
      exact h it hmem ((inBoundingBox_iff _ it).mp hbox)
  · intro it
    rw [hitTest, List.find?_eq_some]
    constructor
    · rintro ⟨hp, pre, post, rfl, hpre⟩
      refine ⟨(inBoundingBox_iff _ it).mp hp, pre, post, rfl, ?_⟩
      intro x hx hbox
      have h1 := hpre x hx
      rw [(inBoundingBox_iff _ x).mpr hbox] at h1
      simp at h1
    · rintro ⟨hp, pre, post, rfl, hpre⟩
      refine ⟨(inBoundingBox_iff _ it).mpr hp, pre, post, rfl, ?_⟩
      intro x hx
      have : ¬ InBox (toNormalized p s) x := hpre x hx
      rw [← inBoundingBox_iff] at this
      simp [this]

/-- Witness for C5: with boxes A = (0,0,500,500) and B = (100,100,600,600)
at indices 0 and 1, a click at normalized (300,300) resolves to A. -/
theorem hitTest_first_match_witness :
    hitTest ⟨300, 300⟩ [itemA, itemB] s1000 = some itemA := by
  apply ((hitTest_first_match ⟨300, 300⟩ [itemA, itemB] s1000).2 itemA).mpr
  refine ⟨?_, [], [itemB], rfl, by simp⟩
  simp only [InBox, itemA, toNormalized, s1000]
  norm_num

/-- Claim C9 counterexample: an entry with a missing bounding box is not
rejected or ignored at the boundary; it appears verbatim in the item list
assembled by analyzeItems. -/
theorem malformed_entry_propagates :
    rawBad.boundingBox = none ∧ rawBad ∈ (analyzeItems [rawBad]).items :=
  ⟨rfl, List.mem_singleton_self rawBad⟩

/-- Claim C9 amended: analyzeItems performs no validation at the
detection-service boundary; the parsed entries are propagated verbatim
into the item list of the assembled result. -/
theorem analyzeItems_no_boundary_filtering :
    ∀ rawItems : List RawItem, (analyzeItems rawItems).items = rawItems :=
  fun _ => rfl

/-- Claim C10: updatePhysicalMetrics preserves the list length and order
and every field except widthMm and heightMm, and assigns both
measurements to every item, including items with an empty mask. -/
theorem updatePhysicalMetrics_frame (items : List ItemInstance) (pxMm : ℝ) (n : ℕ) :
    (updatePhysicalMetrics items pxMm).length = items.length ∧
    ((updatePhysicalMetrics items pxMm)[n]?).map ItemInstance.id =
      (items[n]?).map ItemInstance.id ∧
    ((updatePhysicalMetrics items pxMm)[n]?).map ItemInstance.boundingBox =
      (items[n]?).map ItemInstance.boundingBox ∧
    ((updatePhysicalMetrics items pxMm)[n]?).map ItemInstance.mask =
      (items[n]?).map ItemInstance.mask ∧
    ((updatePhysicalMetrics items pxMm)[n]?).map ItemInstance.confidence =
      (items[n]?).map ItemInstance.confidence ∧
    ((updatePhysicalMetrics items pxMm)[n]?).map ItemInstance.areaPx =
      (items[n]?).map ItemInstance.areaPx ∧
    ((updatePhysicalMetrics items pxMm)[n]?).map ItemInstance.label =
      (items[n]?).map ItemInstance.label ∧
    ((updatePhysicalMetrics items pxMm)[n]?).map
        (fun t => t.widthMm.isSome && t.heightMm.isSome) =
      (items[n]?).map fun _ => true := by
  constructor
  · simp [updatePhysicalMetrics]
  rw [updatePhysicalMetrics_get]
  rcases items[n]? with _ | s
  · exact ⟨rfl, rfl, rfl, rfl, rfl, rfl, rfl⟩
  · rcases s with ⟨i, ⟨ymin, xmin, ymax, xmax⟩, mk, c, a, w, hm, l⟩
    exact ⟨rfl, rfl, rfl, rfl, rfl, rfl, rfl⟩

/-- Claim C1 (code bug): startCalibration performs no guard on
referenceLengthMm.  With referenceLengthMm = 0 the application still arms
(enters CALIBRATING after the init delay), and a completed two-click pass
still assigns pixelsPerMm through the unconditional division in
handleCalibrationUpdate. -/
theorem startCalibration_arms_despite_zero_reference :
    mC1.calibration.referenceLengthMm = 0 ∧
    (startCalibration mC1).appState = AppState.CALIBRATING ∧
    ((handleClick (handleClick (startCalibration mC1) s1000 ⟨0, 0⟩).model s1000
        ⟨30, 40⟩).model.calibration.pixelsPerMm).isSome = true :=
  ⟨rfl, rfl, rfl⟩

/-- Claim C2 (code bug): the Cancel Calibration button only resets the
app state to REVIEW; the buffered first click survives the cancellation
and also survives re-arming, so the click buffer is not empty while the
calibration machine is inactive, nor immediately after it is re-armed. -/
theorem cancel_retains_buffered_point :
    ((handleClick (startCalibration baseModel) s1000 ⟨10, 10⟩).model).calPoints =
      [⟨10, 10⟩] ∧
    (cancelCalibration
      (handleClick (startCalibration baseModel) s1000 ⟨10, 10⟩).model).appState =
      AppState.REVIEW ∧
    (cancelCalibration
      (handleClick (startCalibration baseModel) s1000 ⟨10, 10⟩).model).calPoints =
      [⟨10, 10⟩] ∧
    (startCalibration (cancelCalibration
      (handleClick (startCalibration baseModel) s1000 ⟨10, 10⟩).model)).calPoints =
      [⟨10, 10⟩] :=
  ⟨rfl, rfl, rfl, rfl⟩

/-- Claim C3: while calibrating with one buffered point p0, the second
click p1 completes the pass: onCalibrationUpdate fires with (p0, p1),
pixelsPerMm is set to the euclidean render-space distance divided by
referenceLengthMm, the two points are published to CalibrationData, the
click buffer is cleared, and the machine exits calibration (app state
REVIEW, so isCalibrating becomes false). -/
theorem second_click_completes_calibration (m : Model) (s : Surface)
    (p0 p1 : Point) (hst : m.appState = AppState.CALIBRATING)
    (hbuf : m.calPoints = [p0]) :
    (handleClick m s p1).calibrationPoints = some (p0, p1) ∧
    (handleClick m s p1).model.calibration.pixelsPerMm =
      some (Real.sqrt ((p1.x - p0.x) * (p1.x - p0.x) +
          (p1.y - p0.y) * (p1.y - p0.y)) /
        m.calibration.referenceLengthMm) ∧
    (handleClick m s p1).model.calibration.startPoint = some p0 ∧
    (handleClick m s p1).model.calibration.endPoint = some p1 ∧
    (handleClick m s p1).model.calPoints = [] ∧
    (handleClick m s p1).model.appState = AppState.REVIEW := by
  rcases m with ⟨st, cal, res, sel, em, cp, hov⟩
  dsimp only at hst hbuf
  subst hst
  subst hbuf
  simp [handleClick, handleCalibrationUpdate]

/-- Witness for C3: reference length 10 mm with clicks at (0,0) and
(30,40) (render-space distance 50) yields pixelsPerMm = 5. -/
theorem second_click_completes_calibration_witness :
    (handleClick mC3 s1000 ⟨30, 40⟩).model.calibration.pixelsPerMm = some 5 ∧
    (handleClick mC3 s1000 ⟨30, 40⟩).model.calPoints = [] ∧
    (handleClick mC3 s1000 ⟨30, 40⟩).model.appState = AppState.REVIEW := by
  have h := second_click_completes_calibration mC3 s1000 ⟨0, 0⟩ ⟨30, 40⟩ rfl rfl
  refine ⟨?_, h.2.2.2.2.1, h.2.2.2.2.2⟩
  rw [h.2.1]
  have h50 : Real.sqrt ((((30 : ℝ)) - 0) * (30 - 0) + ((40 : ℝ) - 0) * (40 - 0)) =
      50 := by
    rw [show ((30 : ℝ) - 0) * (30 - 0) + ((40 : ℝ) - 0) * (40 - 0) = 50 ^ 2 by
      norm_num]
    exact Real.sqrt_sq (by norm_num)
  show some (Real.sqrt ((((30 : ℝ)) - 0) * (30 - 0) + ((40 : ℝ) - 0) * (40 - 0)) /
      (10 : ℝ)) = some 5
  rw [h50]
  norm_num

/-- Claim C6: in edit mode with a selected item, a click appends the
normalized click point as the new last vertex of that item's mask, with
all existing vertices and their order preserved; clearSelectedMask resets
the selected item's mask to the empty mask. -/
theorem edit_click_appends_vertex (m : Model) (s : Surface) (p : Point)
    (sel : String) (r : AnalysisResult) (item : ItemInstance)
    (hcal : m.appState ≠ AppState.CALIBRATING)
    (hedit : m.editMode = true)
    (hsel : m.selectedItemId = some sel)
    (hres : m.result = some r)
    (hfind : r.items.find? (fun i => i.id == sel) = some item) :
    (handleClick m s p).maskUpdated =
      some (item.id, item.mask ++ [toNormalized p s]) ∧
    ∀ (items : List ItemInstance) (selId : String) (it : ItemInstance),
      it ∈ clearSelectedMask items selId → it.id = selId → it.mask = [] := by
  constructor
  · rcases m with ⟨st, cal, res, selId, em, cp, hov⟩
    dsimp only at hcal hedit hsel hres
    subst hedit
    subst hsel
    subst hres
    rw [handleClick, if_neg hcal]
    simp [hfind]
  · intro items selId it hmem hid
    rw [clearSelectedMask] at hmem
    rcases List.mem_map.mp hmem with ⟨a, ha, hae⟩
    by_cases h : a.id == selId
    · rw [if_pos h] at hae
      rw [← hae]
    · rw [if_neg h] at hae
      subst hae
      exact absurd (beq_iff_eq.mpr hid) h

/-- Witness for C6: starting from mask [(0,0),(10,0)], clicking at
render-space (10,10) on a 1000-by-1000 surface appends normalized (10,10),
yielding exactly [(0,0),(10,0),(10,10)]; clearing the selected item's mask
yields []. -/
theorem edit_click_appends_vertex_witness :
    (handleClick mC6 s1000 ⟨10, 10⟩).maskUpdated =
      some (("m"), [⟨0, 0⟩, ⟨10, 0⟩, (⟨10, 10⟩ : Point)]) ∧
    ∀ it ∈ clearSelectedMask [itemM] ("m"), it.id = "m" → it.mask = [] := by
  have h := edit_click_appends_vertex mC6 s1000 ⟨10, 10⟩ ("m") resultM itemM
    (by decide) rfl rfl rfl rfl
  constructor
  · rw [h.1]
    have hq : toNormalized ⟨10, 10⟩ s1000 = (⟨10, 10⟩ : Point) := by
      ext
      · show (10 : ℝ) / 1000 * 1000 = 10
        norm_num
      · show (10 : ℝ) / 1000 * 1000 = 10
        norm_num
    rw [hq]
    rfl
  · exact h.2 [itemM] ("m")

/-- Claim C7: updatePhysicalMetrics recomputes, for every item with a
non-empty mask, widthMm and heightMm as the normalized bounding-box
extents times the fixed multiplier 5, divided by pixelsPerMm, rounded to
two decimal places; the recomputation is idempotent for a fixed
pixelsPerMm (no double-scaling); and calibration resolution re-runs it on
the whole result with the freshly published pixelsPerMm. -/
theorem updatePhysicalMetrics_spec :
    (∀ (items : List ItemInstance) (pxMm : ℝ) (n : ℕ) (s : ItemInstance)
        (ymin xmin ymax xmax : ℝ),
        items[n]? = some s → s.boundingBox = (ymin, xmin, ymax, xmax) →
        s.mask ≠ [] →
        (updatePhysicalMetrics items pxMm)[n]? =
          some { s with widthMm := some (round2 ((xmax - xmin) * 5 / pxMm)),
                        heightMm := some (round2 ((ymax - ymin) * 5 / pxMm)) }) ∧
    (∀ (items : List ItemInstance) (pxMm : ℝ),
        updatePhysicalMetrics (updatePhysicalMetrics items pxMm) pxMm =
          updatePhysicalMetrics items pxMm) ∧
    (∀ (m : Model) (p0 p1 : Point) (r : AnalysisResult) (px : ℝ),
        m.result = some r →
        (handleCalibrationUpdate m p0 p1).calibration.pixelsPerMm = some px →
        (handleCalibrationUpdate m p0 p1).result =
          some { r with items := updatePhysicalMetrics r.items px }) := by
  refine ⟨?_, ?_, ?_⟩
  · intro items pxMm n s ymin xmin ymax xmax hget hbb _hmask
    rw [updatePhysicalMetrics_get, hget]
    rcases s with ⟨i, bb, mk, c, a, w, hm, l⟩
    dsimp only at hbb
    subst hbb
    rfl
  · intro items pxMm
    rw [updatePhysicalMetrics, updatePhysicalMetrics, List.map_map]
    apply List.map_congr_left
    intro a _
    rcases a with ⟨i, ⟨ymin, xmin, ymax, xmax⟩, mk, c, w, hm, l⟩
    rfl
  · intro m p0 p1 r px hres hpx
    have hval : (handleCalibrationUpdate m p0 p1).calibration.pixelsPerMm =
        some (Real.sqrt ((p1.x - p0.x) * (p1.x - p0.x) +
            (p1.y - p0.y) * (p1.y - p0.y)) /
          m.calibration.referenceLengthMm) := rfl
    rw [hval] at hpx
    rcases Option.some_inj.mp hpx with rfl
    simp only [handleCalibrationUpdate, hres, Option.map_some']

/-- Witness for C7: for bounding box (0,0,500,1000) and pixelsPerMm = 5,
the measurements are widthMm = 1000 and heightMm = 500, and a calibration
pass at reference length 10 with clicks (0,0) and (30,40) republishes the
result items through updatePhysicalMetrics at the fresh factor 5. -/
theorem updatePhysicalMetrics_spec_witness :
    (updatePhysicalMetrics [itemC7] 5)[0]? =
      some { itemC7 with widthMm := some 1000, heightMm := some 500 } ∧
    (handleCalibrationUpdate mC7 ⟨0, 0⟩ ⟨30, 40⟩).result =
      some { resultC7 with items := updatePhysicalMetrics resultC7.items 5 } := by
  constructor
  · have ha := updatePhysicalMetrics_spec.1 [itemC7] 5 0 itemC7 0 0 500 1000 rfl rfl
      (by simp [itemC7])
    rw [ha]
    have e1 : round2 (((1000 : ℝ) - 0) * 5 / 5) = 1000 := by
      rw [show ((1000 : ℝ) - 0) * 5 / 5 = 1000 by norm_num]
      simp only [round2]
      rw [show (1000 : ℝ) * 100 = ((100000 : ℤ) : ℝ) by norm_num, round_intCast]
      norm_num
    have e2 : round2 (((500 : ℝ) - 0) * 5 / 5) = 500 := by
      rw [show ((500 : ℝ) - 0) * 5 / 5 = 500 by norm_num]
      simp only [round2]
      rw [show (500 : ℝ) * 100 = ((50000 : ℤ) : ℝ) by norm_num, round_intCast]
      norm_num
    rw [e1, e2]
  · have hpx : (handleCalibrationUpdate mC7 ⟨0, 0⟩ ⟨30, 40⟩).calibration.pixelsPerMm =
        some 5 := by
      show some (Real.sqrt ((((30 : ℝ)) - 0) * (30 - 0) +
          ((40 : ℝ) - 0) * (40 - 0)) / (10 : ℝ)) = some 5
      have h50 : Real.sqrt ((((30 : ℝ)) - 0) * (30 - 0) +
          ((40 : ℝ) - 0) * (40 - 0)) = 50 := by
        rw [show ((30 : ℝ) - 0) * (30 - 0) + ((40 : ℝ) - 0) * (40 - 0) = 50 ^ 2 by
          norm_num]
        exact Real.sqrt_sq (by norm_num)
      rw [h50]
      norm_num
    exact updatePhysicalMetrics_spec.2.2 mC7 ⟨0, 0⟩ ⟨30, 40⟩ resultC7 5 rfl hpx

/-- Claim C8 counterexample: in edit mode with no item selected, a click
whose hover resolves to an item still fires onItemClick, so it is not the
case that onItemClick never fires while edit mode is active. -/
theorem editMode_click_fires_onItemClick :
    mC8c.editMode = true ∧ mC8c.selectedItemId = none ∧
    (handleClick mC8c s1000 ⟨1, 1⟩).itemClicked = some itemA :=
  ⟨rfl, rfl, rfl⟩

/-- Claim C8 amended: onItemClick fires exactly when calibration mode is
inactive, it is not the case that edit mode is active with an item
selected and a result present, and the hovered id resolves to an item of
the result; hoveredItemId itself is maintained by the hover hit test on
mouse move.  In particular clicks never fire onItemClick while
calibrating, and in edit mode with a selection they append mask vertices
instead, but in edit mode with no selection clicks still select items. -/
theorem onItemClick_fired_iff :
    (∀ (m : Model) (s : Surface) (p : Point) (it : ItemInstance),
      (handleClick m s p).itemClicked = some it ↔
        m.appState ≠ AppState.CALIBRATING ∧
        ¬(m.editMode = true ∧ m.selectedItemId.isSome ∧ m.result.isSome) ∧
        ∃ hid r, m.hoveredItemId = some hid ∧ m.result = some r ∧
          r.items.find? (fun i => i.id == hid) = some it) ∧
    (∀ (m : Model) (s : Surface) (p : Point) (r : AnalysisResult),
      m.appState ≠ AppState.CALIBRATING → m.result = some r →
      (handleMouseMove m s p).hoveredItemId =
        (hitTest p r.items s).map ItemInstance.id) := by
  constructor
  · intro m s p it
    rcases m with ⟨st, cal, res, sel, em, cp, hov⟩
    by_cases hst : st = AppState.CALIBRATING
    · subst hst
      rcases cp with _ | ⟨q, _ | ⟨q2, cps⟩⟩ <;> simp [handleClick]
    · rcases em with _ | _ <;> rcases sel with _ | s0 <;> rcases res with _ | r0 <;>
        rcases hov with _ | hid <;>
        simp [handleClick, hst] <;>
        (try split <;> simp_all)
      all_goals
        rename_i x heq
        intro hfind
        have hmem := List.mem_of_find?_eq_some hfind
        have hbeq := List.find?_some hfind
        exact heq it hmem (by simpa using hbeq)
  · intro m s p r hst hres
    rcases m with ⟨st, cal, res, sel, em, cp, hov⟩
    dsimp only at hst hres
    subst hres
    simp [handleMouseMove, hst]

/-- Witness for C8 (amended): outside calibration and edit mode, a click
with item A hovered fires onItemClick with item A. -/
theorem onItemClick_fired_iff_witness :
    (handleClick mC8w s1000 ⟨1, 1⟩).itemClicked = some itemA := by
  apply (onItemClick_fired_iff.1 mC8w s1000 ⟨1, 1⟩ itemA).mpr
  refine ⟨by decide, by decide, ("A"), resultA, rfl, rfl, rfl⟩
